import Mathlib

/-
Verification of the command-dispatch and streaming-response core of the
llm-backend repository, against the natural-language specification.

Shallow embedding of:
  src/agent/server/endpoints.py  (command registry, dispatch_command, handlers)
  src/bot/ws_client.py           (WSApiClient.request / vm_execute_stream)

Modelling conventions:
  - Python values appearing in `args` mappings and JSON-decoded frames are
    modelled by the inductive `PyVal` (str, bytes, int, bool, float, list,
    dict, none).  Dicts are association lists.
  - A handler (an async generator) is modelled as a function producing a
    `HandlerOut`: the list of frames it yielded, in order, followed by an
    optional uncaught exception (`PyErr`).  An exception raised before the
    first `yield` gives `frames = []`.
  - Backend operations (agent.api.*), the chat-affinity session object and
    pure library helpers (base64.b64decode, mimetypes.guess_type,
    sanitize_filename, coalesce_stream, int()/float() coercion) are external
    to the two source files; they are parameters of the model (`Backend`,
    `TeamChatSession`, `Env` structures), every field a total or
    `Except`-valued function supplied per instance.
  - `json.dumps({"result": v})` is modelled by `json_dumps_result`, a
    concrete serializer for JSON-representable `PyVal`s (claims never depend
    on serialization corner cases such as dumping bytes).
  - The client `request` loop is modelled on the sequence of outcomes of its
    receive calls: each received frame carries its `json.loads` outcome
    (`Option PyVal`, `none` = JSONDecodeError), and the sequence ends with
    either a timeout or a connection closure (`RecvEnd`).
-/

namespace LlmBackend

/-- Python values as they occur in command `args` mappings and in
JSON-decoded frames.  Floats are modelled exactly as rationals (no claim
involves float arithmetic). -/
inductive PyVal where
  | str (s : String)
  | bytes (b : List Nat)
  | int (n : Int)
  | bool (b : Bool)
  | float (q : Rat)
  | list (xs : List PyVal)
  | dict (kvs : List (String × PyVal))
  | none

/-- Exceptions raised by server-side code: ValueError / TypeError / KeyError
from the handlers themselves, and arbitrary failures raised by backend
operations. -/
inductive PyErr where
  | valueError (msg : String)
  | typeError (msg : String)
  | keyError (key : String)
  | backendError (msg : String)
deriving DecidableEq

/-- An `args` mapping (Python dict with string keys), as an association
list. -/
abbrev Args := List (String × PyVal)

/-- dict.get(k): the value at `k`, or Python `None` when the key is
absent. -/
def pyGet (params : Args) (k : String) : PyVal :=
  (List.lookup k params).getD PyVal.none

/-- dict.get(k, d): the value at `k`, or the default `d` when the key is
absent. -/
def pyGetD (params : Args) (k : String) (d : PyVal) : PyVal :=
  (List.lookup k params).getD d

/-- dict[k]: the value at `k`, or a KeyError when the key is absent. -/
def pyGetItem (params : Args) (k : String) : Except PyErr PyVal :=
  match List.lookup k params with
  | Option.some v => Except.ok v
  | Option.none => Except.error (PyErr.keyError k)

/-- Test for the Python `None` value (`x is None`). -/
def PyVal.isNone : PyVal → Bool
  | PyVal.none => true
  | _ => false

/-- Python truthiness (`bool(x)` / `if x:`). -/
def pyTruthy : PyVal → Bool
  | PyVal.none => false
  | PyVal.bool b => b
  | PyVal.int n => n != 0
  | PyVal.float q => q != 0
  | PyVal.str s => s != ""
  | PyVal.bytes b => !b.isEmpty
  | PyVal.list xs => !xs.isEmpty
  | PyVal.dict kvs => !kvs.isEmpty

/-- Python falsiness (`if not x:`). -/
def pyFalsy (v : PyVal) : Bool := !pyTruthy v

/-- JSON string escaping for one character (the escapes `json.dumps` uses
for the characters claims can exercise). -/
def jsonEscapeChar (c : Char) : String :=
  if c = '"' then "\\\""
  else if c = '\\' then "\\\\"
  else if c = '\n' then "\\n"
  else if c = '\t' then "\\t"
  else if c = '\r' then "\\r"
  else String.singleton c

/-- JSON string escaping, character by character. -/
def jsonEscapeStr (s : String) : String :=
  String.join (s.data.map jsonEscapeChar)

/-- Python str() of a scalar value; containers fall back to a JSON-like
rendering (no claim applies str() to a container). -/
def pyStr : PyVal → String
  | PyVal.str s => s
  | PyVal.int n => toString n
  | PyVal.bool true => "True"
  | PyVal.bool false => "False"
  | PyVal.float q => toString q
  | PyVal.none => "None"
  | PyVal.bytes _ => "<bytes>"
  | PyVal.list _ => "<list>"
  | PyVal.dict _ => "<dict>"

mutual

/-- json.dumps on a JSON-representable value (default separators).  Bytes
are not JSON-serializable in Python; the model renders a placeholder (no
claim dumps bytes). -/
def pyDumps : PyVal → String
  | PyVal.none => "null"
  | PyVal.bool true => "true"
  | PyVal.bool false => "false"
  | PyVal.int n => toString n
  | PyVal.float q => toString q
  | PyVal.str s => "\"" ++ jsonEscapeStr s ++ "\""
  | PyVal.bytes _ => "<bytes>"
  | PyVal.list xs => "[" ++ String.intercalate ", " (pyDumpsList xs) ++ "]"
  | PyVal.dict kvs => "\x7b" ++ String.intercalate ", " (pyDumpsDict kvs) ++ "\x7d"

/-- json.dumps of each element of a list. -/
def pyDumpsList : List PyVal → List String
  | [] => []
  | x :: xs => pyDumps x :: pyDumpsList xs

/-- json.dumps of each key/value pair of a dict. -/
def pyDumpsDict : List (String × PyVal) → List String
  | [] => []
  | (k, v) :: kvs => ("\"" ++ jsonEscapeStr k ++ "\": " ++ pyDumps v) :: pyDumpsDict kvs

end

/-- The envelope frame `json.dumps(\x7b"result": v\x7d)` yielded by the
server handlers. -/
def json_dumps_result (v : PyVal) : String :=
  pyDumps (PyVal.dict [("result", v)])

/-- str.startswith(p), computed on the character lists. -/
def strStartsWith (s p : String) : Bool :=
  p.data.isPrefixOf s.data

/-- Split a character list on the path separator (the semantics of
str.split("/")). -/
def splitSlash (cs : List Char) : List (List Char) :=
  cs.foldr
    (fun c acc =>
      match acc with
      | [] => if c = '/' then [[], []] else [[c]]
      | g :: gs => if c = '/' then [] :: g :: gs else (c :: g) :: gs)
    [[]]

/-- pathlib.Path(p).name: the final nonempty path component (empty for a
root or empty path). -/
def pathName (p : String) : String :=
  ((((splitSlash p.data).map String.mk).filter (fun s => s != "")).getLast?).getD ""

/-- The slice of agent.config.Config the endpoints module reads
(`config.upload_dir`); the rest of the configuration is opaque to the
dispatched code and omitted. -/
structure Config where
  upload_dir : String

/-- The chat-affinity session object (agent.sessions.team.TeamChatSession),
external to the verified files: the two methods the endpoints module calls
on it. -/
structure TeamChatSession where
  chat_stream : String → List (Option String)
  send_notification : String → Except PyErr Unit

/-- The per-invocation context dispatch_command threads to every handler:
user, session, think, config, and the optional chat-affinity session. -/
structure Ctx where
  user : String
  session : String
  think : Bool
  config : Config
  chat : Option TeamChatSession

/-- Pure library helpers called by the endpoints module but defined outside
the two source files (base64, mimetypes, agent.utils.helpers, int()/float()
coercion).  Modelled as parameters: each instance supplies total or
`Except`-valued functions. -/
structure Env where
  /-- base64.b64decode(s.encode()): decoded bytes, or the binascii error it
  raises. -/
  b64decode : String → Except PyErr (List Nat)
  /-- agent.utils.helpers.sanitize_filename (external helper). -/
  sanitize_filename : PyVal → String
  /-- mimetypes.guess_type: the inferred MIME type of a path, if any. -/
  guess_type : String → Option String
  /-- agent.utils.helpers.coalesce_stream (external stream coalescer). -/
  coalesce : List String → List String
  /-- int(x) coercion (may raise). -/
  int_of : PyVal → Except PyErr PyVal
  /-- float(x) coercion (may raise). -/
  float_of : PyVal → Except PyErr PyVal

/-- The async backend operations from agent.api consumed by the handlers
(external contract; signatures follow the call sites in endpoints.py).
Streaming operations return their chunk sequence; all others return
`Except` to model a raised backend failure. -/
structure Backend where
  team_chat : String → String → String → Bool → Config → List (Option String)
  upload_document : String → String → String → Config → Except PyErr String
  upload_data : List Nat → PyVal → String → String → Config → Except PyErr String
  send_notification : String → String → String → Config → Except PyErr Unit
  transcribe_and_upload : String → String → String → Config → Except PyErr String
  list_dir : String → String → Config → Except PyErr (List PyVal)
  read_file : String → String → Config → Except PyErr PyVal
  write_file : String → String → String → Config → Except PyErr PyVal
  delete_path : String → String → String → Config → Except PyErr PyVal
  download_file : String → String → String → PyVal → Config → Except PyErr PyVal
  vm_execute : String → String → String → PyVal → Config → Except PyErr PyVal
  vm_execute_stream : String → String → String → Config → Bool → List String
  vm_send_input : String → String → String → Config → Except PyErr Unit
  vm_send_keys : String → PyVal → String → String → Config → Except PyErr Unit
  list_sessions : String → Except PyErr PyVal
  list_sessions_info : String → Except PyErr PyVal
  list_documents : String → Except PyErr PyVal
  get_memory : String → Except PyErr PyVal
  set_memory : String → String → Except PyErr PyVal
  reset_memory : String → Except PyErr PyVal
  restart_terminal : String → String → Config → Except PyErr Unit

/-- The outcome of running one handler invocation to completion: the frames
it yielded, in order, and the uncaught exception that ended it, if any. -/
structure HandlerOut where
  frames : List (Option String)
  err : Option PyErr
deriving DecidableEq

/-- A handler: `(params, user, session, think, config, chat) → async
iterator of frames`, with user/session/think/config/chat bundled in `Ctx`
and the external world in `Env`/`Backend`. -/
abbrev HandlerFn := Args → Ctx → Env → Backend → HandlerOut

/-- The `_yield_stream` helper (endpoints.py lines 47-53): forward every
element of the stream, skipping `None`. -/
def _yield_stream : List (Option String) → List String
  | [] => []
  | Option.none :: rest => _yield_stream rest
  | Option.some p :: rest => p :: _yield_stream rest

/-- Handler for team_chat / chat (endpoints.py lines 62-78): read the
prompt, stream from the chat-affinity session if present, else from the
one-off team_chat backend call, forwarding through `_yield_stream`. -/
def _team_chat_handler : HandlerFn := fun params ctx _env b =>
  let prompt := pyStr (pyGetD params "prompt" (PyVal.str ""))
  let stream :=
    match ctx.chat with
    | Option.some c => c.chat_stream prompt
    | Option.none => b.team_chat prompt ctx.user ctx.session ctx.think ctx.config
  ⟨(_yield_stream stream).map Option.some, Option.none⟩

/-- The store phase of _upload_document_handler (endpoints.py lines
89-113): either decode the in-memory payload and upload it under its
destination name, or upload a resident file by path.  Returns the backend
result string and the computed local path, or the exception raised before
the first yield. -/
def _upload_store_phase (params : Args) (ctx : Ctx) (env : Env) (b : Backend) :
    Except PyErr (String × String) :=
  let file_data := pyGet params "file_data"
  if file_data.isNone then
    match List.lookup "file_path" params with
    | Option.none => Except.error (PyErr.keyError "file_path")
    | Option.some v =>
      let file_path := pyStr v
      match b.upload_document file_path ctx.user ctx.session ctx.config with
      | Except.error e => Except.error e
      | Except.ok result =>
        Except.ok (result,
          ctx.config.upload_dir ++ "/" ++ ctx.user ++ "/" ++ pathName file_path)
  else
    let file_name := pyGet params "file_name"
    if pyFalsy file_name then
      Except.error (PyErr.valueError "file_name required when file_data provided")
    else
      let doUpload := fun (data : List Nat) =>
        match b.upload_data data file_name ctx.user ctx.session ctx.config with
        | Except.error e => Except.error e
        | Except.ok result =>
          Except.ok (result,
            ctx.config.upload_dir ++ "/" ++ ctx.user ++ "/"
              ++ env.sanitize_filename file_name)
      match file_data with
      | PyVal.str s =>
        match env.b64decode s with
        | Except.error e => Except.error e
        | Except.ok data => doUpload data
      | PyVal.bytes bs => doUpload bs
      | _ => Except.error (PyErr.typeError "file_data must be bytes or base64 string")

/-- The tail of _upload_document_handler after a successful store
(endpoints.py lines 115-137): notify, yield the store-result envelope,
then, when the inferred MIME type is audio, transcribe; on a non-empty
transcript notify again and yield a second envelope; every transcription
phase failure is caught and swallowed. -/
def _upload_tail (result local_path : String) (ctx : Ctx) (env : Env) (b : Backend) :
    HandlerOut :=
  match b.send_notification ("File uploaded: " ++ result) ctx.user ctx.session ctx.config with
  | Except.error e => ⟨[], Option.some e⟩
  | Except.ok _ =>
    let frame1 := json_dumps_result (PyVal.str result)
    let audio :=
      match env.guess_type local_path with
      | Option.some m => (m != "") && strStartsWith m "audio"
      | Option.none => false
    if audio then
      match b.transcribe_and_upload local_path ctx.user ctx.session ctx.config with
      | Except.error _ => ⟨[Option.some frame1], Option.none⟩
      | Except.ok transcript_path =>
        if transcript_path != "" then
          match b.send_notification ("File uploaded: " ++ transcript_path)
              ctx.user ctx.session ctx.config with
          | Except.error _ => ⟨[Option.some frame1], Option.none⟩
          | Except.ok _ =>
            ⟨[Option.some frame1,
              Option.some (json_dumps_result (PyVal.str transcript_path))],
             Option.none⟩
        else ⟨[Option.some frame1], Option.none⟩
    else ⟨[Option.some frame1], Option.none⟩

/-- Handler for upload_document (endpoints.py lines 81-137): store phase
followed by the notify/yield/transcribe tail. -/
def _upload_document_handler : HandlerFn := fun params ctx env b =>
  match _upload_store_phase params ctx env b with
  | Except.error e => ⟨[], Option.some e⟩
  | Except.ok (result, local_path) => _upload_tail result local_path ctx env b

/-- Handler for list_dir (endpoints.py lines 139-149). -/
def _list_dir_handler : HandlerFn := fun params ctx _env b =>
  match pyGetItem params "path" with
  | Except.error e => ⟨[], Option.some e⟩
  | Except.ok pv =>
    match b.list_dir (pyStr pv) ctx.user ctx.config with
    | Except.error e => ⟨[], Option.some e⟩
    | Except.ok listing =>
      ⟨[Option.some (json_dumps_result (PyVal.list listing))], Option.none⟩

/-- Handler for read_file (endpoints.py lines 152-162). -/
def _read_file_handler : HandlerFn := fun params ctx _env b =>
  match pyGetItem params "path" with
  | Except.error e => ⟨[], Option.some e⟩
  | Except.ok pv =>
    match b.read_file (pyStr pv) ctx.user ctx.config with
    | Except.error e => ⟨[], Option.some e⟩
    | Except.ok content => ⟨[Option.some (json_dumps_result content)], Option.none⟩

/-- Handler for write_file (endpoints.py lines 165-176). -/
def _write_file_handler : HandlerFn := fun params ctx _env b =>
  match pyGetItem params "path" with
  | Except.error e => ⟨[], Option.some e⟩
  | Except.ok pv =>
    let content := pyStr (pyGetD params "content" (PyVal.str ""))
    match b.write_file (pyStr pv) content ctx.user ctx.config with
    | Except.error e => ⟨[], Option.some e⟩
    | Except.ok result => ⟨[Option.some (json_dumps_result result)], Option.none⟩

/-- Handler for delete_path (endpoints.py lines 179-189). -/
def _delete_path_handler : HandlerFn := fun params ctx _env b =>
  match pyGetItem params "path" with
  | Except.error e => ⟨[], Option.some e⟩
  | Except.ok pv =>
    match b.delete_path (pyStr pv) ctx.user ctx.session ctx.config with
    | Except.error e => ⟨[], Option.some e⟩
    | Except.ok result => ⟨[Option.some (json_dumps_result result)], Option.none⟩

/-- Handler for download_file (endpoints.py lines 192-205). -/
def _download_file_handler : HandlerFn := fun params ctx _env b =>
  match pyGetItem params "path" with
  | Except.error e => ⟨[], Option.some e⟩
  | Except.ok pv =>
    let dest := pyGet params "dest"
    match b.download_file (pyStr pv) ctx.user ctx.session dest ctx.config with
    | Except.error e => ⟨[], Option.some e⟩
    | Except.ok result => ⟨[Option.some (json_dumps_result result)], Option.none⟩

/-- Handler for vm_execute (endpoints.py lines 208-223): optional timeout
coerced with int() when not None. -/
def _vm_execute_handler : HandlerFn := fun params ctx env b =>
  match pyGetItem params "command" with
  | Except.error e => ⟨[], Option.some e⟩
  | Except.ok cv =>
    let timeout0 := pyGet params "timeout"
    let timeoutRes :=
      if timeout0.isNone then Except.ok timeout0 else env.int_of timeout0
    match timeoutRes with
    | Except.error e => ⟨[], Option.some e⟩
    | Except.ok timeout =>
      match b.vm_execute (pyStr cv) ctx.user ctx.session timeout ctx.config with
      | Except.error e => ⟨[], Option.some e⟩
      | Except.ok result => ⟨[Option.some (json_dumps_result result)], Option.none⟩

/-- bool(params.get("raw", True)): the raw-mode flag of
_vm_execute_stream_handler (endpoints.py line 235). -/
def vm_raw_flag (params : Args) : Bool :=
  pyTruthy (pyGetD params "raw" (PyVal.bool true))

/-- Handler for vm_execute_stream (endpoints.py lines 226-242): raw mode
passes the backend stream through the coalescer; otherwise chunks are
relayed individually. -/
def _vm_execute_stream_handler : HandlerFn := fun params ctx env b =>
  match pyGetItem params "command" with
  | Except.error e => ⟨[], Option.some e⟩
  | Except.ok cv =>
    let raw := vm_raw_flag params
    let stream := b.vm_execute_stream (pyStr cv) ctx.user ctx.session ctx.config raw
    if raw then ⟨(env.coalesce stream).map Option.some, Option.none⟩
    else ⟨stream.map Option.some, Option.none⟩

/-- Handler for vm_input (endpoints.py lines 245-255). -/
def _vm_input_handler : HandlerFn := fun params ctx _env b =>
  let data := pyGetD params "data" (PyVal.str "")
  match b.vm_send_input (pyStr data) ctx.user ctx.session ctx.config with
  | Except.error e => ⟨[], Option.some e⟩
  | Except.ok _ =>
    ⟨[Option.some (json_dumps_result (PyVal.str "ok"))], Option.none⟩

/-- Handler for vm_keys (endpoints.py lines 258-271): per-keystroke delay
coerced with float(). -/
def _vm_keys_handler : HandlerFn := fun params ctx env b =>
  let data := pyGetD params "data" (PyVal.str "")
  match env.float_of (pyGetD params "delay" (PyVal.float (1 / 20))) with
  | Except.error e => ⟨[], Option.some e⟩
  | Except.ok delay =>
    match b.vm_send_keys (pyStr data) delay ctx.user ctx.session ctx.config with
    | Except.error e => ⟨[], Option.some e⟩
    | Except.ok _ =>
      ⟨[Option.some (json_dumps_result (PyVal.str "ok"))], Option.none⟩

/-- Handler for send_notification (endpoints.py lines 274-284). -/
def _send_notification_handler : HandlerFn := fun params ctx _env b =>
  match pyGetItem params "message" with
  | Except.error e => ⟨[], Option.some e⟩
  | Except.ok mv =>
    match b.send_notification (pyStr mv) ctx.user ctx.session ctx.config with
    | Except.error e => ⟨[], Option.some e⟩
    | Except.ok _ =>
      ⟨[Option.some (json_dumps_result (PyVal.str "ok"))], Option.none⟩

/-- Handler for list_sessions (endpoints.py lines 287-296). -/
def _list_sessions_handler : HandlerFn := fun _params ctx _env b =>
  match b.list_sessions ctx.user with
  | Except.error e => ⟨[], Option.some e⟩
  | Except.ok sessions => ⟨[Option.some (json_dumps_result sessions)], Option.none⟩

/-- Handler for list_sessions_info (endpoints.py lines 299-308). -/
def _list_sessions_info_handler : HandlerFn := fun _params ctx _env b =>
  match b.list_sessions_info ctx.user with
  | Except.error e => ⟨[], Option.some e⟩
  | Except.ok info => ⟨[Option.some (json_dumps_result info)], Option.none⟩

/-- Handler for list_documents (endpoints.py lines 311-320). -/
def _list_documents_handler : HandlerFn := fun _params ctx _env b =>
  match b.list_documents ctx.user with
  | Except.error e => ⟨[], Option.some e⟩
  | Except.ok docs => ⟨[Option.some (json_dumps_result docs)], Option.none⟩

/-- Handler for get_memory (endpoints.py lines 323-332). -/
def _get_memory_handler : HandlerFn := fun _params ctx _env b =>
  match b.get_memory ctx.user with
  | Except.error e => ⟨[], Option.some e⟩
  | Except.ok memory => ⟨[Option.some (json_dumps_result memory)], Option.none⟩

/-- Handler for set_memory (endpoints.py lines 335-345). -/
def _set_memory_handler : HandlerFn := fun params ctx _env b =>
  let memory := pyStr (pyGetD params "memory" (PyVal.str ""))
  match b.set_memory ctx.user memory with
  | Except.error e => ⟨[], Option.some e⟩
  | Except.ok result => ⟨[Option.some (json_dumps_result result)], Option.none⟩

/-- Handler for reset_memory (endpoints.py lines 348-357). -/
def _reset_memory_handler : HandlerFn := fun _params ctx _env b =>
  match b.reset_memory ctx.user with
  | Except.error e => ⟨[], Option.some e⟩
  | Except.ok memory => ⟨[Option.some (json_dumps_result memory)], Option.none⟩

/-- Handler for restart_terminal (endpoints.py lines 360-371): restart,
then, when a chat-affinity session is present, notify through it (a failure
there propagates), then yield the ack envelope. -/
def _restart_terminal_handler : HandlerFn := fun _params ctx _env b =>
  match b.restart_terminal ctx.user ctx.session ctx.config with
  | Except.error e => ⟨[], Option.some e⟩
  | Except.ok _ =>
    let notifyRes :=
      match ctx.chat with
      | Option.some c => c.send_notification "VM terminal restarted"
      | Option.none => Except.ok ()
    match notifyRes with
    | Except.error e => ⟨[], Option.some e⟩
    | Except.ok _ =>
      ⟨[Option.some (json_dumps_result (PyVal.str "restarted"))], Option.none⟩

/-- The static command registry _HANDLERS (endpoints.py lines 374-395). -/
def _HANDLERS : List (String × HandlerFn) :=
  [("team_chat", _team_chat_handler),
   ("chat", _team_chat_handler),
   ("upload_document", _upload_document_handler),
   ("list_dir", _list_dir_handler),
   ("read_file", _read_file_handler),
   ("write_file", _write_file_handler),
   ("delete_path", _delete_path_handler),
   ("download_file", _download_file_handler),
   ("vm_execute", _vm_execute_handler),
   ("vm_execute_stream", _vm_execute_stream_handler),
   ("vm_input", _vm_input_handler),
   ("vm_keys", _vm_keys_handler),
   ("send_notification", _send_notification_handler),
   ("list_sessions", _list_sessions_handler),
   ("list_sessions_info", _list_sessions_info_handler),
   ("list_documents", _list_documents_handler),
   ("get_memory", _get_memory_handler),
   ("set_memory", _set_memory_handler),
   ("reset_memory", _reset_memory_handler),
   ("restart_terminal", _restart_terminal_handler)]

/-- The outcome of one dispatch_command invocation: the frames relayed to
the wire, in order, and the uncaught exception that ended it, if any. -/
structure DispatchOut where
  frames : List String
  err : Option PyErr
deriving DecidableEq

/-- dispatch_command (endpoints.py lines 398-419): default missing params
to the empty mapping, resolve the command against _HANDLERS (unknown name:
ValueError before any frame), then relay the handler frames, skipping
`None`. -/
def dispatch_command (command : String) (params : Option Args) (ctx : Ctx)
    (env : Env) (b : Backend) : DispatchOut :=
  let ps := params.getD []
  match List.lookup command _HANDLERS with
  | Option.none => ⟨[], Option.some (PyErr.valueError ("Unknown command: " ++ command))⟩
  | Option.some handler =>
    let o := handler ps ctx env b
    ⟨_yield_stream o.frames, o.err⟩

/-- Failures a WSApiClient.request call can end with (ws_client.py lines
62-95): the RuntimeError raised on a receive timeout; the
websockets.ConnectionClosed exception propagated out of ws.recv() when the
connection closes (only asyncio.TimeoutError is caught around the receive);
the RuntimeError written after the while loop at line 95
(closedWithoutResult); and the TypeError raised by the membership test
`key in data` when json.loads returned a non-container value. -/
inductive ReqError where
  | unresponsive
  | connectionClosed
  | closedWithoutResult
  | typeErrorNotIterable
deriving DecidableEq

/-- How the sequence of receive calls of one request ends once no further
frame arrives: the per-receive timeout elapses, or the connection closes. -/
inductive RecvEnd where
  | timeout
  | closed
deriving DecidableEq

/-- Python `needle in hay` for strings: substring containment. -/
def strContainsKey (hay needle : String) : Bool :=
  hay.data.tails.any (fun t => needle.data.isPrefixOf t)

/-- Python `key in v` on a JSON-decoded value: key membership for a dict,
element equality for a list, substring test for a string; a TypeError for
every non-container value (None, bool, number). -/
def pyContains (key : String) : PyVal → Except ReqError Bool
  | PyVal.dict kvs => Except.ok (kvs.any (fun kv => kv.1 == key))
  | PyVal.list xs =>
    Except.ok (xs.any (fun x =>
      match x with
      | PyVal.str s => s == key
      | _ => false))
  | PyVal.str s => Except.ok (strContainsKey s key)
  | _ => Except.error ReqError.typeErrorNotIterable

/-- The qualifying test of the request loop (ws_client.py line 92):
`"result" in data or "error" in data`, with Python short-circuit
evaluation. -/
def hasResultOrError (v : PyVal) : Except ReqError Bool :=
  match pyContains "result" v with
  | Except.error e => Except.error e
  | Except.ok true => Except.ok true
  | Except.ok false => pyContains "error" v

/-- WSApiClient.request receive loop (ws_client.py lines 80-95), modelled
on the outcomes of its receive calls: each received frame carries its
json.loads outcome (`none` = JSONDecodeError, skipped), and after the
listed frames the receive ends with `ending`.  A timeout raises the
unresponsive RuntimeError; a closure propagates the transport
ConnectionClosed exception (the line-95 RuntimeError sits after a `while
True` with no break).  A frame decoding to a non-container raises the
membership TypeError; the first frame whose decoded value contains
"result" or "error" is returned. -/
def request : List (Option PyVal) → RecvEnd → Except ReqError PyVal
  | [], RecvEnd.timeout => Except.error ReqError.unresponsive
  | [], RecvEnd.closed => Except.error ReqError.connectionClosed
  | Option.none :: rest, ending => request rest ending
  | Option.some d :: rest, ending =>
    match hasResultOrError d with
    | Except.error e => Except.error e
    | Except.ok true => Except.ok d
    | Except.ok false => request rest ending

/-- The args mapping WSApiClient.vm_execute_stream sends (ws_client.py
lines 97-112): the command and always an explicit `raw` value, whose
parameter default is `false`. -/
def client_vm_execute_stream_args (command : String) (raw : Bool := false) : Args :=
  [("command", PyVal.str command), ("raw", PyVal.bool raw)]

/-! Concrete fixtures used by witness and counterexample theorems. -/

/-- A concrete configuration for witnesses. -/
def testConfig : Config := ⟨"/uploads"⟩

/-- A concrete invocation context for witnesses (no chat affinity). -/
def testCtx : Ctx := ⟨"alice", "s1", true, testConfig, Option.none⟩

/-- A concrete environment for witnesses: decoding succeeds, filenames are
kept as-is, `.mp3` paths are inferred as audio, coalescing is the identity,
coercions succeed. -/
def testEnv : Env where
  b64decode := fun _ => Except.ok [104, 105]
  sanitize_filename := fun v => pyStr v
  guess_type := fun s =>
    if (".mp3".data.isSuffixOf s.data) then Option.some "audio/mpeg" else Option.none
  coalesce := fun xs => xs
  int_of := Except.ok
  float_of := Except.ok

/-- A concrete backend for witnesses on which every operation succeeds. -/
def okBackend : Backend where
  team_chat := fun _ _ _ _ _ => [Option.some "hi"]
  upload_document := fun _ _ _ _ => Except.ok "up/doc.mp3"
  upload_data := fun _ _ _ _ _ => Except.ok "up/data.bin"
  send_notification := fun _ _ _ _ => Except.ok ()
  transcribe_and_upload := fun _ _ _ _ => Except.ok "up/doc.txt"
  list_dir := fun _ _ _ => Except.ok []
  read_file := fun _ _ _ => Except.ok (PyVal.str "contents")
  write_file := fun _ _ _ _ => Except.ok (PyVal.str "written")
  delete_path := fun _ _ _ _ => Except.ok (PyVal.str "deleted")
  download_file := fun _ _ _ _ _ => Except.ok (PyVal.str "/host/f")
  vm_execute := fun _ _ _ _ _ => Except.ok (PyVal.str "out")
  vm_execute_stream := fun _ _ _ _ _ => ["a", "b"]
  vm_send_input := fun _ _ _ _ => Except.ok ()
  vm_send_keys := fun _ _ _ _ _ => Except.ok ()
  list_sessions := fun _ => Except.ok (PyVal.list [])
  list_sessions_info := fun _ => Except.ok (PyVal.list [])
  list_documents := fun _ => Except.ok (PyVal.list [])
  get_memory := fun _ => Except.ok (PyVal.str "")
  set_memory := fun _ _ => Except.ok (PyVal.str "")
  reset_memory := fun _ => Except.ok (PyVal.str "")
  restart_terminal := fun _ _ _ => Except.ok ()

/-- The witness backend whose notification delivery raises. -/
def notifyFailBackend : Backend :=
  { okBackend with send_notification := fun _ _ _ _ => Except.error (PyErr.backendError "notify down") }

/-- The witness backend whose transcription raises. -/
def transcribeFailBackend : Backend :=
  { okBackend with transcribe_and_upload := fun _ _ _ _ => Except.error (PyErr.backendError "whisper down") }

/-- The backend whose notification delivery succeeds for the store-result
message but raises for the transcript-result message ("File uploaded:
up/doc.txt"). -/
def secondNotifyFailBackend : Backend :=
  { okBackend with
    send_notification := fun msg _ _ _ =>
      if msg = "File uploaded: up/doc.txt" then
        Except.error (PyErr.backendError "notify down")
      else Except.ok () }

/-! Helper lemmas shared by the claim theorems. -/

/-- Forwarding a handler stream while skipping `None` is exactly
`List.filterMap id`. -/
theorem yield_stream_eq_filterMap (xs : List (Option String)) :
    _yield_stream xs = xs.filterMap id := by
  induction xs with
  | nil => rfl
  | cons x xs ih => cases x <;> simp [_yield_stream, ih]

/-- A MIME type that starts with "audio" is nonempty. -/
theorem strStartsWith_audio_ne_empty (m : String)
    (h : strStartsWith m "audio" = true) : (m != "") = true := by
  rcases eq_or_ne m "" with rfl | hne
  · exact absurd h (by decide)
  · simpa [bne_iff_ne] using hne

/-- The Python membership test raises only the TypeError, never any other
failure. -/
theorem pyContains_error_eq (k : String) (d : PyVal) (e : ReqError)
    (h : pyContains k d = Except.error e) : e = ReqError.typeErrorNotIterable := by
  cases d <;> simp [pyContains] at h <;> exact h.symm

/-- The qualifying test of the request loop raises only the TypeError,
never any other failure. -/
theorem hasResultOrError_error_eq (d : PyVal) (e : ReqError)
    (h : hasResultOrError d = Except.error e) : e = ReqError.typeErrorNotIterable := by
  unfold hasResultOrError at h
  cases hc : pyContains "result" d with
  | error e1 =>
    rw [hc] at h
    simp at h
    subst h
    exact pyContains_error_eq _ _ _ hc
  | ok bb =>
    rw [hc] at h
    cases bb
    · exact pyContains_error_eq _ _ _ h
    · simp at h

/-! Claim theorems. -/

/-- C2: for every command name not present in the registry, dispatch fails
with the unknown-command ValueError (a routing error) and the resulting
sequence contains zero frames. -/
theorem unknown_command_routing_error (command : String) (params : Option Args)
    (ctx : Ctx) (env : Env) (b : Backend)
    (h : List.lookup command _HANDLERS = Option.none) :
    dispatch_command command params ctx env b =
      ⟨[], Option.some (PyErr.valueError ("Unknown command: " ++ command))⟩ := by
  simp [dispatch_command, h]

/-- C2 witness: the concrete unregistered name "frobnicate" gives zero
frames and the routing error. -/
theorem unknown_command_routing_error_witness :
    dispatch_command "frobnicate" Option.none testCtx testEnv okBackend =
      ⟨[], Option.some (PyErr.valueError ("Unknown command: " ++ "frobnicate"))⟩ :=
  unknown_command_routing_error "frobnicate" Option.none testCtx testEnv okBackend rfl

/-- C6: dispatching "chat" produces the same outcome as dispatching
"team_chat" with identical args and context: both names resolve to the one
handler _team_chat_handler. -/
theorem chat_alias_equivalence (params : Option Args) (ctx : Ctx) (env : Env)
    (b : Backend) :
    dispatch_command "chat" params ctx env b =
      dispatch_command "team_chat" params ctx env b := rfl

/-- C9: for every resolved handler, dispatch_command forwards exactly the
frames different from the `None` sentinel, unchanged and in production
order (the filterMap-id of the handler output), and propagates the handler
outcome. -/
theorem dispatch_forwards_non_none_frames (name : String) (h : HandlerFn)
    (params : Args) (ctx : Ctx) (env : Env) (b : Backend)
    (hl : List.lookup name _HANDLERS = Option.some h) :
    (dispatch_command name (Option.some params) ctx env b).frames =
      ((h params ctx env b).frames.filterMap id) ∧
    (dispatch_command name (Option.some params) ctx env b).err =
      (h params ctx env b).err := by
  simp [dispatch_command, hl, yield_stream_eq_filterMap]

/-- C9 witness: the concrete command "vm_input" on the all-success
backend. -/
theorem dispatch_forwards_non_none_frames_witness :
    (dispatch_command "vm_input" (Option.some []) testCtx testEnv okBackend).frames =
      ((_vm_input_handler [] testCtx testEnv okBackend).frames.filterMap id) ∧
    (dispatch_command "vm_input" (Option.some []) testCtx testEnv okBackend).err =
      (_vm_input_handler [] testCtx testEnv okBackend).err :=
  dispatch_forwards_non_none_frames "vm_input" _vm_input_handler [] testCtx testEnv
    okBackend rfl

/-- C1 counterexample: an upload whose store succeeds but whose
notification delivery raises yields zero frames — the store-result frame
is not emitted, refuting the claim that a notification failure cannot
prevent the first frame. -/
theorem upload_notify_failure_counterexample :
    _upload_document_handler [("file_path", PyVal.str "/tmp/a.mp3")] testCtx testEnv
        notifyFailBackend =
      ⟨[], Option.some (PyErr.backendError "notify down")⟩ := by decide

/-- C1 amended: a failure raised by the notification backend after a
successful store propagates out of the handler before the first frame: the
handler yields zero frames and ends with that failure. -/
theorem upload_notify_failure_blocks_first_frame (params : Args) (ctx : Ctx)
    (env : Env) (b : Backend) (r lp : String) (e : PyErr)
    (hstore : _upload_store_phase params ctx env b = Except.ok (r, lp))
    (hnotify : b.send_notification ("File uploaded: " ++ r) ctx.user ctx.session
        ctx.config = Except.error e) :
    _upload_document_handler params ctx env b = ⟨[], Option.some e⟩ := by
  simp [_upload_document_handler, hstore, _upload_tail, hnotify]

/-- C1 amended witness: the concrete failing-notification backend on a
path upload. -/
theorem upload_notify_failure_blocks_first_frame_witness :
    _upload_document_handler [("file_path", PyVal.str "/tmp/a.mp3")] testCtx testEnv
        notifyFailBackend =
      ⟨[], Option.some (PyErr.backendError "notify down")⟩ :=
  upload_notify_failure_blocks_first_frame [("file_path", PyVal.str "/tmp/a.mp3")]
    testCtx testEnv notifyFailBackend "up/doc.mp3" "/uploads/alice/a.mp3"
    (PyErr.backendError "notify down") rfl rfl

/-- C3 counterexample: an upload satisfying every condition of the claim —
the store succeeds, the inferred MIME type of the stored local path
"/uploads/alice/a.mp3" is audio, and transcription returns the non-empty
transcript location "up/doc.txt" — on which the handler nevertheless
yields exactly one envelope frame, not two: the second notification
raises, and the try/except around the transcription phase swallows that
failure before the second yield is reached. -/
theorem upload_second_notify_failure_counterexample :
    _upload_document_handler [("file_path", PyVal.str "/tmp/a.mp3")] testCtx testEnv
        secondNotifyFailBackend =
      ⟨[Option.some (json_dumps_result (PyVal.str "up/doc.mp3"))], Option.none⟩ ∧
    _upload_store_phase [("file_path", PyVal.str "/tmp/a.mp3")] testCtx testEnv
        secondNotifyFailBackend =
      Except.ok ("up/doc.mp3", "/uploads/alice/a.mp3") ∧
    testEnv.guess_type "/uploads/alice/a.mp3" = Option.some "audio/mpeg" ∧
    strStartsWith "audio/mpeg" "audio" = true ∧
    secondNotifyFailBackend.transcribe_and_upload "/uploads/alice/a.mp3" testCtx.user
        testCtx.session testCtx.config = Except.ok "up/doc.txt" ∧
    ("up/doc.txt" != "") = true :=
  ⟨by decide, rfl, rfl, by decide, rfl, by decide⟩

/-- C3 amended: when the store and its notification succeed, the inferred
MIME type of the stored local path is audio, transcription succeeds with a
non-empty transcript location and the second notification also succeeds,
the handler yields exactly two envelope frames, in order: the store-result
frame, then the transcript-result frame, and raises nothing. -/
theorem upload_audio_transcript_two_frames (params : Args) (ctx : Ctx) (env : Env)
    (b : Backend) (r lp m tp : String)
    (hstore : _upload_store_phase params ctx env b = Except.ok (r, lp))
    (hn1 : b.send_notification ("File uploaded: " ++ r) ctx.user ctx.session
        ctx.config = Except.ok ())
    (hmime : env.guess_type lp = Option.some m)
    (haudio : strStartsWith m "audio" = true)
    (htr : b.transcribe_and_upload lp ctx.user ctx.session ctx.config = Except.ok tp)
    (htp : (tp != "") = true)
    (hn2 : b.send_notification ("File uploaded: " ++ tp) ctx.user ctx.session
        ctx.config = Except.ok ()) :
    _upload_document_handler params ctx env b =
      ⟨[Option.some (json_dumps_result (PyVal.str r)),
        Option.some (json_dumps_result (PyVal.str tp))], Option.none⟩ := by
  simp [_upload_document_handler, hstore, _upload_tail, hn1, hmime,
    strStartsWith_audio_ne_empty m haudio, haudio, htr, htp, hn2]

/-- C3 witness: a concrete `.mp3` path upload on the all-success backend
yields the store-result envelope then the transcript-result envelope. -/
theorem upload_audio_transcript_two_frames_witness :
    _upload_document_handler [("file_path", PyVal.str "/tmp/a.mp3")] testCtx testEnv
        okBackend =
      ⟨[Option.some (json_dumps_result (PyVal.str "up/doc.mp3")),
        Option.some (json_dumps_result (PyVal.str "up/doc.txt"))], Option.none⟩ :=
  upload_audio_transcript_two_frames [("file_path", PyVal.str "/tmp/a.mp3")]
    testCtx testEnv okBackend "up/doc.mp3" "/uploads/alice/a.mp3" "audio/mpeg"
    "up/doc.txt" rfl rfl (by decide) (by decide) rfl (by decide) rfl

/-- C4: when the store and its notification succeed and the inferred MIME
type is audio but the transcription backend raises, the failure is caught
and swallowed: the handler yields exactly the store-result frame and no
error is surfaced. -/
theorem upload_audio_transcribe_failure_one_frame (params : Args) (ctx : Ctx)
    (env : Env) (b : Backend) (r lp m : String) (e : PyErr)
    (hstore : _upload_store_phase params ctx env b = Except.ok (r, lp))
    (hn1 : b.send_notification ("File uploaded: " ++ r) ctx.user ctx.session
        ctx.config = Except.ok ())
    (hmime : env.guess_type lp = Option.some m)
    (haudio : strStartsWith m "audio" = true)
    (htr : b.transcribe_and_upload lp ctx.user ctx.session ctx.config =
        Except.error e) :
    _upload_document_handler params ctx env b =
      ⟨[Option.some (json_dumps_result (PyVal.str r))], Option.none⟩ := by
  simp [_upload_document_handler, hstore, _upload_tail, hn1, hmime,
    strStartsWith_audio_ne_empty m haudio, haudio, htr]

/-- C4 witness: a concrete `.mp3` path upload on the backend whose
transcription raises yields exactly the store-result envelope. -/
theorem upload_audio_transcribe_failure_one_frame_witness :
    _upload_document_handler [("file_path", PyVal.str "/tmp/a.mp3")] testCtx testEnv
        transcribeFailBackend =
      ⟨[Option.some (json_dumps_result (PyVal.str "up/doc.mp3"))], Option.none⟩ :=
  upload_audio_transcribe_failure_one_frame [("file_path", PyVal.str "/tmp/a.mp3")]
    testCtx testEnv transcribeFailBackend "up/doc.mp3" "/uploads/alice/a.mp3"
    "audio/mpeg" (PyErr.backendError "whisper down") rfl rfl (by decide)
    (by decide) rfl

/-- Classifier for the payload shapes the upload handler accepts in-memory
(Python str for base64 text, bytes/bytearray for binary). -/
def isStrOrBytes : PyVal → Bool
  | PyVal.str _ => true
  | PyVal.bytes _ => true
  | _ => false

/-- C5: for an in-memory upload (file_data present, i.e. not None), a falsy
destination file_name is a ValueError before any frame, and a payload that
is neither bytes-like nor base64 text is a TypeError before any frame; in
both cases zero frames are yielded. -/
theorem upload_payload_param_errors (params : Args) (ctx : Ctx) (env : Env)
    (b : Backend) (hp : (pyGet params "file_data").isNone = false) :
    (pyFalsy (pyGet params "file_name") = true →
      _upload_document_handler params ctx env b =
        ⟨[], Option.some (PyErr.valueError "file_name required when file_data provided")⟩) ∧
    (pyFalsy (pyGet params "file_name") = false →
      isStrOrBytes (pyGet params "file_data") = false →
      _upload_document_handler params ctx env b =
        ⟨[], Option.some (PyErr.typeError "file_data must be bytes or base64 string")⟩) := by
  constructor
  · intro hname
    simp [_upload_document_handler, _upload_store_phase, hp, hname]
  · intro hname hshape
    cases hfd : pyGet params "file_data" <;>
      simp_all [_upload_document_handler, _upload_store_phase, isStrOrBytes,
        PyVal.isNone]

/-- C5 witness: a payload without a name gives the ValueError, and an
integer payload with a name gives the TypeError, both with zero frames. -/
theorem upload_payload_param_errors_witness :
    (_upload_document_handler [("file_data", PyVal.bytes [104])] testCtx testEnv
        okBackend =
      ⟨[], Option.some (PyErr.valueError "file_name required when file_data provided")⟩) ∧
    (_upload_document_handler
        [("file_data", PyVal.int 7), ("file_name", PyVal.str "a.bin")] testCtx testEnv
        okBackend =
      ⟨[], Option.some (PyErr.typeError "file_data must be bytes or base64 string")⟩) :=
  ⟨(upload_payload_param_errors [("file_data", PyVal.bytes [104])] testCtx testEnv
      okBackend (by decide)).1 (by decide),
   (upload_payload_param_errors
      [("file_data", PyVal.int 7), ("file_name", PyVal.str "a.bin")] testCtx testEnv
      okBackend (by decide)).2 (by decide) (by decide)⟩

/-- C7: what a single-result call actually raises when no qualifying frame
arrives: a receive timeout raises the unresponsive RuntimeError, while a
connection closure propagates the transport ConnectionClosed exception —
not the closed-without-result RuntimeError the claim names (that raise,
after the `while True` loop, is unreachable, as
request_line95_unreachable shows); the two transport outcomes remain
distinct failures. -/
theorem request_failure_modes :
    request [] RecvEnd.timeout = Except.error ReqError.unresponsive ∧
    request [] RecvEnd.closed = Except.error ReqError.connectionClosed ∧
    ReqError.connectionClosed ≠ ReqError.closedWithoutResult ∧
    ReqError.connectionClosed ≠ ReqError.unresponsive :=
  ⟨rfl, rfl, by decide, by decide⟩

/-- The RuntimeError after the receive loop (ws_client.py line 95) is dead
code: no sequence of received frames and no ending produces it. -/
theorem request_line95_unreachable (frames : List (Option PyVal)) (ending : RecvEnd) :
    request frames ending ≠ Except.error ReqError.closedWithoutResult := by
  induction frames with
  | nil => cases ending <;> simp [request]
  | cons f rest ih =>
    cases f with
    | none => simpa [request] using ih
    | some d =>
      cases hc : hasResultOrError d with
      | error e =>
        have he := hasResultOrError_error_eq d e hc
        subst he
        simp [request, hc]
      | ok bb =>
        cases bb
        · simpa [request, hc] using ih
        · simp [request, hc]

/-- C8 counterexample: a frame that parses as JSON to the number 5 is not
skipped — the membership test `"result" in data` raises an uncaught
TypeError, so the call fails instead of returning the qualifying envelope
that follows. -/
theorem request_scalar_frame_counterexample :
    request [Option.some (PyVal.int 5),
        Option.some (PyVal.dict [("result", PyVal.str "v")])] RecvEnd.timeout =
      Except.error ReqError.typeErrorNotIterable ∧
    (Except.error ReqError.typeErrorNotIterable ≠
      (Except.ok (PyVal.dict [("result", PyVal.str "v")]) : Except ReqError PyVal)) :=
  ⟨rfl, fun h => Except.noConfusion h⟩

/-- A received frame the request loop silently skips: one that fails to
parse as JSON, or one whose decoded value is a container (dict, list or
string) in which neither "result" nor "error" is found. -/
def skippable (f : Option PyVal) : Bool :=
  match f with
  | Option.none => true
  | Option.some v =>
    match hasResultOrError v with
    | Except.ok false => true
    | _ => false

/-- C8 amended: frames that fail to parse as JSON, and JSON frames whose
decoded value is a container not containing `result` or `error`, are
skipped without error, and the call returns the decoded value of the first
frame that contains `result` or `error`; frames decoding to non-container
JSON values (numbers, booleans, null) are excluded — on those the
membership test raises an uncaught TypeError. -/
theorem request_skips_junk_returns_first (junk : List (Option PyVal)) (v : PyVal)
    (rest : List (Option PyVal)) (ending : RecvEnd)
    (hjunk : ∀ f ∈ junk, skippable f = true)
    (hv : hasResultOrError v = Except.ok true) :
    request (junk ++ Option.some v :: rest) ending = Except.ok v := by
  induction junk with
  | nil => simp [request, hv]
  | cons f junk ih =>
    have hf := hjunk f (by simp)
    have hrest : ∀ g ∈ junk, skippable g = true := fun g hg => hjunk g (by simp [hg])
    cases f with
    | none => simpa [request] using ih hrest
    | some u =>
      have hu : hasResultOrError u = Except.ok false := by
        revert hf
        unfold skippable
        cases h : hasResultOrError u with
        | error e => simp [h]
        | ok bb => cases bb <;> simp [h]
      simp only [List.cons_append, request, hu]
      exact ih hrest

/-- C8 amended witness: a non-JSON frame and an empty-list frame are
skipped and the first error-envelope frame is returned. -/
theorem request_skips_junk_returns_first_witness :
    request [Option.none, Option.some (PyVal.list []),
        Option.some (PyVal.dict [("error", PyVal.str "boom")])] RecvEnd.timeout =
      Except.ok (PyVal.dict [("error", PyVal.str "boom")]) :=
  request_skips_junk_returns_first [Option.none, Option.some (PyVal.list [])]
    (PyVal.dict [("error", PyVal.str "boom")]) [] RecvEnd.timeout
    (by decide) rfl

/-- C10: when `raw` is absent from a vm_execute_stream args mapping the
server handler defaults it to true and takes the coalesced path, whereas
the client driver always sends an explicit `raw` value whose parameter
default is false. -/
theorem vm_execute_stream_raw_defaults :
    (∀ params : Args, List.lookup "raw" params = Option.none →
      vm_raw_flag params = true) ∧
    (∀ (params : Args) (ctx : Ctx) (env : Env) (b : Backend) (cv : PyVal),
      List.lookup "raw" params = Option.none →
      List.lookup "command" params = Option.some cv →
      _vm_execute_stream_handler params ctx env b =
        ⟨(env.coalesce (b.vm_execute_stream (pyStr cv) ctx.user ctx.session
            ctx.config true)).map Option.some, Option.none⟩) ∧
    (∀ (command : String) (raw : Bool),
      List.lookup "raw" (client_vm_execute_stream_args command raw) =
        Option.some (PyVal.bool raw)) ∧
    (∀ command : String,
      vm_raw_flag (client_vm_execute_stream_args command) = false) := by
  refine ⟨?_, ?_, ?_, ?_⟩
  · intro params h
    simp [vm_raw_flag, pyGetD, h, pyTruthy]
  · intro params ctx env b cv hraw hcmd
    simp [_vm_execute_stream_handler, pyGetItem, hcmd, vm_raw_flag, pyGetD, hraw,
      pyTruthy]
  · intro command raw
    rfl
  · intro command
    rfl

/-- C10 witness: concrete args without `raw` select the coalesced path, and
the concrete client args always carry an explicit `raw`, false by
default. -/
theorem vm_execute_stream_raw_defaults_witness :
    vm_raw_flag [("command", PyVal.str "ls")] = true ∧
    _vm_execute_stream_handler [("command", PyVal.str "ls")] testCtx testEnv
        okBackend =
      ⟨(testEnv.coalesce (okBackend.vm_execute_stream "ls" testCtx.user
          testCtx.session testCtx.config true)).map Option.some, Option.none⟩ ∧
    List.lookup "raw" (client_vm_execute_stream_args "ls" true) =
      Option.some (PyVal.bool true) ∧
    vm_raw_flag (client_vm_execute_stream_args "ls") = false :=
  ⟨vm_execute_stream_raw_defaults.1 [("command", PyVal.str "ls")] rfl,
   vm_execute_stream_raw_defaults.2.1 [("command", PyVal.str "ls")] testCtx testEnv
     okBackend (PyVal.str "ls") rfl rfl,
   vm_execute_stream_raw_defaults.2.2.1 "ls" true,
   vm_execute_stream_raw_defaults.2.2.2 "ls"⟩

end LlmBackend
